import Mathlib

/-!
Shallow embedding of `src/prefect/tasks/census/census.py` (`CensusSyncTask.run`).

The `run` method is modelled as a pure function from its two Python parameters
plus a `Network` record that fixes the response to the single trigger POST and
the successive responses to the poll GET requests.  The observable network and
timing behaviour (POST, GET, `time.sleep`) is emitted as a trace of `Event`s;
logging calls are advisory and are not modelled.  HTTP bodies are modelled as
already-parsed JSON values (`response.json()` / `status_response.json()`), so
non-JSON bodies are outside the model.

The Python exceptions raised by `run` are `ValueError` (carrying its message)
and the implicit dictionary failures `KeyError` / `TypeError` /
`AttributeError`; they are modelled by `Err`.
-/

set_option autoImplicit false

namespace Census

/-! ### JSON values

Parsed JSON, as returned by `response.json()`.  Objects are association lists
with distinct keys (Python `dict`s obtained from JSON parsing). -/

inductive Json where
  | null
  | bool (b : Bool)
  | num (n : Int)
  | str (s : String)
  | arr (elems : List Json)
  | obj (fields : List (String × Json))

/-- Python `str()` of a JSON value, as used by the f-string building `sr_url`
(line 87).  The sync-run identifier returned by the Census API is a scalar
(string or integer); container renderings are not exercised by the code's
contract and are given placeholder text. -/
def pyStr : Json → String
  | .null => "None"
  | .bool true => "True"
  | .bool false => "False"
  | .num n => toString n
  | .str s => s
  | .arr _ => "<list>"
  | .obj _ => "<dict>"

/-! ### Errors and events -/

/-- Exceptions observable from `run`: `ValueError` with its message, and the
dictionary-access faults `KeyError` (key missing from a `dict`), `TypeError`
(subscripting a non-`dict` with a string key), `AttributeError`
(calling `.keys()` on a non-`dict`). -/
inductive Err where
  | valueError (msg : String)
  | keyError (key : String)
  | typeError
  | attributeError
deriving Repr, DecidableEq

/-- Observable side effects of `run`: `requests.post`, `requests.get`
(each carrying the URL it is issued to) and `time.sleep` (carrying the
duration in seconds). -/
inductive Event where
  | post (url : String)
  | get (url : String)
  | sleep (seconds : Int)
deriving Repr, DecidableEq

/-- Result of an invocation of `run`: normal return of the final `data`
object, a raised exception, or `pending` when the supplied list of poll
responses is exhausted while the loop would still be running (the real loop
would block waiting for further responses). -/
inductive Outcome where
  | ok (result : Json)
  | err (e : Err)
  | pending

/-! ### Python `dict` access -/

/-- First-match lookup in an association list (Python `dict` access; keys of
parsed JSON objects are distinct). -/
def assocLookup (k : String) : List (String × Json) → Option Json
  | [] => none
  | (k', v) :: rest => if k' = k then some v else assocLookup k rest

/-- Python subscript `j[k]` for a string key `k`: a `KeyError` when `j` is a
`dict` without the key, a `TypeError` when `j` is not a `dict`. -/
def pySubscript (j : Json) (k : String) : Except Err Json :=
  match j with
  | .obj fields =>
    match assocLookup k fields with
    | some v => .ok v
    | none => .error (.keyError k)
  | _ => .error .typeError

/-! ### The regular expression of line 61

Backtracking matcher for the exact pattern
`https:\/\/bearer:secret-token:(.*)@app.getcensus.com\/api\/v1\/syncs\/(\d*)\/trigger`
with Python `re.match` semantics: anchored at the start of the string only (a
match need not reach the end), `.` matches any character except a newline,
`*` is greedy with backtracking, and matching is case-sensitive.  `\d` is
modelled as an ASCII digit (Python's `\d` additionally accepts non-ASCII
Unicode digits, which the pattern's surrounding literals make unreachable in
any URL the code's contract deals with). -/

/-- One element of the compiled pattern: a literal character, the
metacharacter `.`, or one of the two capturing groups `(.*)` and `(\d*)`. -/
inductive RE where
  | lit (c : Char)
  | dot
  | grpStarDot
  | grpStarDigit
deriving Repr, DecidableEq

/-- Length of the longest run `(.*)` may consume: characters up to (not
including) the first newline. -/
def dotRunLen (s : List Char) : Nat :=
  (s.takeWhile (fun c => c ≠ '\n')).length

/-- Length of the longest run `(\d*)` may consume: leading decimal digits. -/
def digitRunLen (s : List Char) : Nat :=
  (s.takeWhile (fun c => c.isDigit)).length

/-- Greedy backtracking for a starred group: try consuming `n` characters
first and shrink on failure, so the longest successful consumption wins.
`k` matches the rest of the pattern against the rest of the string; on
success the consumed characters are returned as the group's capture. -/
def tryDrop (k : List Char → Option (List String)) (s : List Char) :
    Nat → Option (String × List String)
  | 0 =>
    match k s with
    | some gs => some ("", gs)
    | none => none
  | n + 1 =>
    match k (s.drop (n + 1)) with
    | some gs => some (((s.take (n + 1)).asString), gs)
    | none => tryDrop k s n

/-- Matcher with explicit fuel bounding the recursion depth.  Every recursive
call strictly shrinks the pattern, so any fuel exceeding the pattern length is
adequate; `matchList` below supplies such fuel.  Returns the list of group
captures in order when a prefix of the string matches the pattern. -/
def matchFuel : Nat → List RE → List Char → Option (List String)
  | 0, _, _ => none
  | _ + 1, [], _ => some []
  | _ + 1, .lit _ :: _, [] => none
  | f + 1, .lit c :: ps, x :: xs => if x = c then matchFuel f ps xs else none
  | _ + 1, .dot :: _, [] => none
  | f + 1, .dot :: ps, x :: xs => if x = '\n' then none else matchFuel f ps xs
  | f + 1, .grpStarDot :: ps, s =>
    match tryDrop (matchFuel f ps) s (dotRunLen s) with
    | some (g, gs) => some (g :: gs)
    | none => none
  | f + 1, .grpStarDigit :: ps, s =>
    match tryDrop (matchFuel f ps) s (digitRunLen s) with
    | some (g, gs) => some (g :: gs)
    | none => none

/-- Anchored match (`re.match`) of a compiled pattern against a string. -/
def matchList (ps : List RE) (s : List Char) : Option (List String) :=
  matchFuel (ps.length + 1) ps s

/-- Literal characters of a pattern fragment. -/
def lits (w : String) : List RE :=
  w.data.map RE.lit

/-- Compiled form of the pattern on line 61.  The two dots inside
`app.getcensus.com` are unescaped in the source pattern and hence
metacharacters. -/
def censusPattern : List RE :=
  lits "https://bearer:secret-token:" ++ [RE.grpStarDot] ++
    lits "@app" ++ [RE.dot] ++ lits "getcensus" ++ [RE.dot] ++
    lits "com/api/v1/syncs/" ++ [RE.grpStarDigit] ++ lits "/trigger"

/-- `url_pattern.match(api_trigger)` followed by `confirmed_pattern.groups()`:
`none` when the anchored match fails, otherwise the pair
`(secret, sync_id)` of the two captures. -/
def censusMatch (s : String) : Option (String × String) :=
  match matchList censusPattern s.data with
  | some [secret, sync_id] => some (secret, sync_id)
  | _ => none

/-! ### HTTP model -/

/-- An HTTP response: `status_code`, raw `text` (used only in the trigger
error message) and the parsed JSON body. -/
structure Response where
  status_code : Int
  text : String
  body : Json

/-- The environment of one invocation: the response the server gives to the
trigger POST, and the successive responses to the poll GET requests. -/
structure Network where
  postResponse : Response
  getResponses : List Response

/-! ### Constants and messages (verbatim from the source) -/

/-- Line 10: `MIN_WAIT_TIME, DEFAULT_WAIT_TIME = 5, 60`. -/
def MIN_WAIT_TIME : Int := 5

/-- Line 10: `MIN_WAIT_TIME, DEFAULT_WAIT_TIME = 5, 60`. -/
def DEFAULT_WAIT_TIME : Int := 60

/-- Message of the `ValueError` raised on a missing/empty `api_trigger`
(lines 56-59; a Python triple-quoted string spanning two source lines). -/
def missingTriggerMsg : String :=
  "Value for parameter `api_trigger` must be provided. See Census sync\n                                configuration page."

/-- Message of the `ValueError` raised when the pattern does not match
(lines 68-71). -/
def invalidTriggerMsg : String :=
  "Invalid parameter for `api_trigger` please paste directly from the Census\n                                sync configuration page. This is CaSe SenSITiVe."

/-- Message of the `ValueError` raised on a non-200 trigger response
(line 77): carries the status code and the response body text verbatim. -/
def postFailMsg (code : Int) (text : String) : String :=
  "Sent POST, failed with status code " ++ (toString code ++ (": " ++ (text ++ ".")))

/-- Message of the `ValueError` raised on a failed poll response
(lines 98-100): points at the provider-side log URL. -/
def pollFailMsg (log_url : String) : String :=
  "Getting status of sync failed, please visit Census Logs at " ++ (log_url ++ " to see more.")

/-- Line 87: the f-string building the status-polling URL `sr_url` from the
captured secret and the extracted run identifier. -/
def srUrl (secret : String) (sync_run_id : Json) : String :=
  "https://bearer:secret-token:" ++ secret ++ "@app.getcensus.com/api/v1/sync_runs/" ++
    pyStr sync_run_id

/-- Line 88: the f-string building the provider-side log URL `log_url`. -/
def logUrl (sync_id : String) : String :=
  "https://app.getcensus.com/syncs/" ++ sync_id ++ "/sync-history"

/-- Line 80: `sleep_time = max(MIN_WAIT_TIME, poll_status_every_n_seconds)`. -/
def effectiveSleepTime (poll_status_every_n_seconds : Int) : Int :=
  max MIN_WAIT_TIME poll_status_every_n_seconds

/-! ### The poll loop (lines 93-108) -/

/-- Classification of one poll response (lines 97-108, after the sleep and
the GET): `none` means the status is the string `"working"` and the loop
continues; `some o` means the loop stops with outcome `o`.  The `or` on line
97 short-circuits, so a non-200 status raises the `ValueError` before
`.keys()` is consulted; at 200, `.keys()` on a non-`dict` body raises
`AttributeError`.  A present `data` value is subscripted with `"status"`
(line 102); any status other than the string `"working"` breaks the loop and
the `data` value is returned. -/
def pollOnce (log_url : String) (r : Response) : Option Outcome :=
  if r.status_code ≠ 200 then
    some (.err (.valueError (pollFailMsg log_url)))
  else
    match r.body with
    | .obj fields =>
      match assocLookup "data" fields with
      | none => some (.err (.valueError (pollFailMsg log_url)))
      | some result =>
        match pySubscript result "status" with
        | .error e => some (.err e)
        | .ok (.str s) => if s = "working" then none else some (.ok result)
        | .ok _ => some (.ok result)
    | _ => some (.err .attributeError)

/-- The `while True` loop of lines 93-108 over the remaining poll responses.
Each iteration sleeps, issues one GET to `sr_url`, and classifies the
response with `pollOnce`.  An exhausted response list yields `pending`
(the real loop would block for the next response). -/
def pollLoop (sleep_time : Int) (sr_url log_url : String) :
    List Response → List Event × Outcome
  | [] => ([], .pending)
  | r :: rest =>
    match pollOnce log_url r with
    | some o => ([.sleep sleep_time, .get sr_url], o)
    | none =>
      let cont := pollLoop sleep_time sr_url log_url rest
      (.sleep sleep_time :: .get sr_url :: cont.1, cont.2)

/-! ### `CensusSyncTask.run` (lines 31-125) -/

/-- The `run` method.  `api_trigger` is `none` when the parameter is absent
(the constructor default `None`); `poll_status_every_n_seconds` defaults to
`DEFAULT_WAIT_TIME` as in the source signature.  Returns the emitted event
trace paired with the outcome. -/
def run (api_trigger : Option String) (net : Network)
    (poll_status_every_n_seconds : Int := DEFAULT_WAIT_TIME) :
    List Event × Outcome :=
  match api_trigger with
  | none => ([], .err (.valueError missingTriggerMsg))
  | some trig =>
    if trig = "" then
      ([], .err (.valueError missingTriggerMsg))
    else
      match censusMatch trig with
      | none => ([], .err (.valueError invalidTriggerMsg))
      | some (secret, sync_id) =>
        let response := net.postResponse
        if response.status_code ≠ 200 then
          ([.post trig], .err (.valueError (postFailMsg response.status_code response.text)))
        else
          let sleep_time := effectiveSleepTime poll_status_every_n_seconds
          match pySubscript response.body "data" with
          | .error e => ([.post trig], .err e)
          | .ok d =>
            match pySubscript d "sync_run_id" with
            | .error e => ([.post trig], .err e)
            | .ok sync_run_id =>
              let sr_url := srUrl secret sync_run_id
              let log_url := logUrl sync_id
              let looped := pollLoop sleep_time sr_url log_url net.getResponses
              (.post trig :: looped.1, looped.2)


/-! ### Helper predicates over the embedding -/

/-- An event that is a poll GET request. -/
def isGet : Event → Bool
  | .get _ => true
  | _ => false

/-- Number of poll GET requests in a trace. -/
def countGets (tr : List Event) : Nat :=
  (tr.filter isGet).length

/-- A poll response on which the loop keeps running: HTTP 200, a JSON-object
body whose `data` value subscripts to the status string `"working"`. -/
def workingResp (r : Response) : Prop :=
  r.status_code = 200 ∧
    ∃ fields d, r.body = Json.obj fields ∧ assocLookup "data" fields = some d ∧
      pySubscript d "status" = Except.ok (Json.str "working")

/-- A poll response on which the loop breaks normally: HTTP 200, a JSON-object
body whose `data` value is `d`, and `d` has a `status` value other than the
string `"working"`. -/
def terminalResp (r : Response) (d : Json) : Prop :=
  r.status_code = 200 ∧
    (∃ fields, r.body = Json.obj fields ∧ assocLookup "data" fields = some d) ∧
    ∃ stj, pySubscript d "status" = Except.ok stj ∧ stj ≠ Json.str "working"

/-- The generic lookup faults (Python `KeyError` / `TypeError`), as opposed to
the explicitly raised `ValueError`s. -/
def Err.isLookupFailure : Err → Bool
  | .keyError _ => true
  | .typeError => true
  | _ => false

/-! ### Concrete fixtures used by witnesses and counterexamples -/

/-- The documented example trigger endpoint (docstring line 42). -/
def trigEx : String :=
  "https://bearer:secret-token:s3cr3t@app.getcensus.com/api/v1/syncs/123/trigger"

/-- A trigger endpoint differing from a valid one only in the case of the
scheme. -/
def upperTrig : String :=
  "HTTPS://bearer:secret-token:s3cr3t@app.getcensus.com/api/v1/syncs/123/trigger"

/-- A well-formed trigger endpoint followed by trailing junk characters. -/
def junkTrig : String :=
  "https://bearer:secret-token:s3cr3t@app.getcensus.com/api/v1/syncs/123/triggerJUNKJUNK"

/-- A trigger endpoint with an empty secret and an empty sync identifier. -/
def emptyGroupsTrig : String :=
  "https://bearer:secret-token:@app.getcensus.com/api/v1/syncs//trigger"

/-- A successful trigger response carrying a run identifier. -/
def postOk : Response :=
  ⟨200, "", .obj [("data", .obj [("sync_run_id", .str "r9")])]⟩

/-- A poll response with status `"working"`. -/
def wEx : Response :=
  ⟨200, "", .obj [("data", .obj [("status", .str "working")])]⟩

/-- A terminal poll response with status `"completed"` and a metric. -/
def cEx : Response :=
  ⟨200, "", .obj [("data", .obj [("status", .str "completed"), ("records_processed", .num 10)])]⟩

/-- Environment for the happy path: two `"working"` polls then `"completed"`. -/
def netEx : Network := ⟨postOk, [wEx, wEx, cEx]⟩

/-- The status URL `run` derives from `trigEx` and run identifier `"r9"`. -/
def srEx : String :=
  "https://bearer:secret-token:s3cr3t@app.getcensus.com/api/v1/sync_runs/r9"

/-- The log URL `run` derives from `trigEx`. -/
def logEx : String :=
  "https://app.getcensus.com/syncs/123/sync-history"

/-- Environment whose trigger POST is refused. -/
def net403 : Network := ⟨⟨403, "denied", .null⟩, []⟩

/-- Environment whose second poll response (after one `"working"` poll) is a
server error. -/
def netWorkThen500 : Network := ⟨postOk, [wEx, ⟨500, "oops", .null⟩]⟩

/-- Environment whose first poll response is 200 with a JSON-array body. -/
def netPollArr : Network := ⟨postOk, [⟨200, "", .arr []⟩]⟩

/-- Environment whose trigger response has a `data` object without the
`sync_run_id` field. -/
def netNoRunId : Network := ⟨⟨200, "", .obj [("data", .obj [])]⟩, []⟩

/-! ### Basic lemmas -/

lemma censusMatch_empty : censusMatch "" = none := rfl

lemma censusMatch_ne_empty {trig secret sync_id : String}
    (hm : censusMatch trig = some (secret, sync_id)) : trig ≠ "" := by
  intro h
  rw [h, censusMatch_empty] at hm
  cases hm

/-- On a validated endpoint, a 200 trigger response and a successfully
extracted run identifier, `run` reduces to the POST event followed by the
poll loop on the derived URLs. -/
lemma run_success (trig secret sync_id : String) (net : Network) (n : Int) (d rid : Json)
    (hm : censusMatch trig = some (secret, sync_id))
    (hc : net.postResponse.status_code = 200)
    (hd : pySubscript net.postResponse.body "data" = Except.ok d)
    (hr : pySubscript d "sync_run_id" = Except.ok rid) :
    run (some trig) net n =
      (Event.post trig ::
         (pollLoop (effectiveSleepTime n) (srUrl secret rid) (logUrl sync_id) net.getResponses).1,
       (pollLoop (effectiveSleepTime n) (srUrl secret rid) (logUrl sync_id) net.getResponses).2) := by
  have htrig : trig ≠ "" := censusMatch_ne_empty hm
  simp [run, htrig, hm, hc, hd, hr]

lemma pollOnce_of_working (lu : String) (r : Response) (h : workingResp r) :
    pollOnce lu r = none := by
  obtain ⟨h200, fields, d, hbody, hdata, hstat⟩ := h
  simp [pollOnce, h200, hbody, hdata, hstat]

lemma pollOnce_of_terminal (lu : String) (r : Response) (d : Json) (h : terminalResp r d) :
    pollOnce lu r = some (.ok d) := by
  obtain ⟨h200, ⟨fields, hbody, hdata⟩, stj, hstat, hne⟩ := h
  cases stj with
  | null => simp [pollOnce, h200, hbody, hdata, hstat]
  | bool b => simp [pollOnce, h200, hbody, hdata, hstat]
  | num m => simp [pollOnce, h200, hbody, hdata, hstat]
  | str s =>
    have hs : ¬ s = "working" := fun hh => hne (by rw [hh])
    simp [pollOnce, h200, hbody, hdata, hstat, hs]
  | arr el => simp [pollOnce, h200, hbody, hdata, hstat]
  | obj fl => simp [pollOnce, h200, hbody, hdata, hstat]

lemma pollOnce_of_bad (lu : String) (r : Response)
    (hbad : r.status_code ≠ 200 ∨
      (r.status_code = 200 ∧ ∃ fields, r.body = Json.obj fields ∧ assocLookup "data" fields = none)) :
    pollOnce lu r = some (.err (.valueError (pollFailMsg lu))) := by
  rcases hbad with h | ⟨h200, fields, hbody, hdata⟩
  · simp [pollOnce, h]
  · simp [pollOnce, h200, hbody, hdata]

/-- The loop runs exactly through a prefix of `"working"` responses and stops
at the first terminal one, ignoring everything after it. -/
lemma pollLoop_of_working_prefix (st : Int) (u lu : String) (ws : List Response) (t : Response)
    (rest : List Response) (d : Json)
    (hW : ∀ r ∈ ws, workingResp r) (hT : terminalResp t d) :
    pollLoop st u lu (ws ++ t :: rest) =
      ((List.replicate (ws.length + 1) [Event.sleep st, Event.get u]).flatten, .ok d) := by
  induction ws with
  | nil => simp [pollLoop, pollOnce_of_terminal lu t d hT]
  | cons w ws ih =>
    have hw := hW w (by simp)
    have ih' := ih (fun r hr => hW r (by simp [hr]))
    simp [pollLoop, pollOnce_of_working lu w hw, ih', List.replicate_succ]

/-- The loop runs through a prefix of `"working"` responses and stops at the
first response `pollOnce` classifies as stopping, with that iteration's
outcome; everything after it is ignored. -/
lemma pollLoop_stops_after_working_prefix (st : Int) (u lu : String) (ws : List Response)
    (t : Response) (rest : List Response) (o : Outcome)
    (hW : ∀ r ∈ ws, workingResp r) (hT : pollOnce lu t = some o) :
    pollLoop st u lu (ws ++ t :: rest) =
      ((List.replicate (ws.length + 1) [Event.sleep st, Event.get u]).flatten, o) := by
  induction ws with
  | nil => simp [pollLoop, hT]
  | cons w ws ih =>
    have hw := hW w (by simp)
    have ih2 := ih (fun r hr => hW r (by simp [hr]))
    simp [pollLoop, pollOnce_of_working lu w hw, ih2, List.replicate_succ]

lemma countGets_flatten_replicate (k : Nat) (st : Int) (u : String) :
    countGets (List.replicate k [Event.sleep st, Event.get u]).flatten = k := by
  induction k with
  | zero => simp [countGets]
  | succ k ih =>
    simp only [countGets, List.replicate_succ, List.flatten_cons, List.filter_append,
      List.length_append] at ih ⊢
    simp only [ih, List.filter, isGet]
    simp [Nat.add_comm]

lemma countGets_cons_post (v : String) (tr : List Event) :
    countGets (Event.post v :: tr) = countGets tr := by
  simp [countGets, List.filter, isGet]

/-- Every event the loop emits is the sleep or the GET of that iteration. -/
lemma pollLoop_events (st : Int) (u lu : String) (rs : List Response) :
    ∀ e ∈ (pollLoop st u lu rs).1, e = Event.sleep st ∨ e = Event.get u := by
  induction rs with
  | nil => simp [pollLoop]
  | cons r rest ih =>
    intro e he
    rw [pollLoop] at he
    cases hpo : pollOnce lu r with
    | some o =>
      rw [hpo] at he
      simp at he
      rcases he with h | h
      · exact .inl h
      · exact .inr h
    | none =>
      rw [hpo] at he
      simp at he
      rcases he with h | h | h
      · exact .inl h
      · exact .inr h
      · exact ih e h

lemma pollLoop_get_mem (st : Int) (u lu : String) (r : Response) (rest : List Response) :
    Event.get u ∈ (pollLoop st u lu (r :: rest)).1 := by
  rw [pollLoop]
  cases pollOnce lu r <;> simp

lemma pySubscript_error_shape (j : Json) (k : String) (e : Err)
    (h : pySubscript j k = .error e) : e = .keyError k ∨ e = .typeError := by
  cases j with
  | obj fields =>
    cases halk : assocLookup k fields with
    | some v => simp [pySubscript, halk] at h
    | none =>
      simp [pySubscript, halk] at h
      exact .inl h.symm
  | null => simp [pySubscript] at h; exact .inr h.symm
  | bool b => simp [pySubscript] at h; exact .inr h.symm
  | num m => simp [pySubscript] at h; exact .inr h.symm
  | str s => simp [pySubscript] at h; exact .inr h.symm
  | arr el => simp [pySubscript] at h; exact .inr h.symm

/-! ### Distinguishing the error messages by their first character -/

lemma data_append' (p q : String) : (p ++ q).data = p.data ++ q.data := by
  cases p
  cases q
  rfl

lemma append_ne_of_head (p q m : String) (c cm : Char)
    (hp : p.data.head? = some c) (hm : m.data.head? = some cm) (hne : c ≠ cm) :
    p ++ q ≠ m := by
  intro h
  have hd : p.data ++ q.data = m.data := by
    rw [← data_append']
    exact congrArg String.data h
  cases hpd : p.data with
  | nil => rw [hpd] at hp; cases hp
  | cons a as =>
    rw [hpd] at hp hd
    simp only [List.head?_cons, Option.some.injEq] at hp
    rw [← hd] at hm
    simp only [List.cons_append, List.head?_cons, Option.some.injEq] at hm
    exact hne (hp ▸ hm ▸ rfl)

lemma postFailMsg_ne_missing (c : Int) (t : String) : postFailMsg c t ≠ missingTriggerMsg :=
  append_ne_of_head _ _ _ 'S' 'V' rfl rfl (by decide)

lemma postFailMsg_ne_invalid (c : Int) (t : String) : postFailMsg c t ≠ invalidTriggerMsg :=
  append_ne_of_head _ _ _ 'S' 'I' rfl rfl (by decide)

lemma pollFailMsg_ne_missing (lu : String) : pollFailMsg lu ≠ missingTriggerMsg :=
  append_ne_of_head _ _ _ 'G' 'V' rfl rfl (by decide)

lemma pollFailMsg_ne_invalid (lu : String) : pollFailMsg lu ≠ invalidTriggerMsg :=
  append_ne_of_head _ _ _ 'G' 'I' rfl rfl (by decide)

/-! ### Shapes of the outcomes the poll loop can produce -/

lemma pollOnce_shape (lu : String) (r : Response) (o : Outcome) (h : pollOnce lu r = some o) :
    o = .err (.valueError (pollFailMsg lu)) ∨ o = .err .attributeError ∨
      (∃ k, o = .err (.keyError k)) ∨ o = .err .typeError ∨ ∃ j, o = .ok j := by
  unfold pollOnce at h
  split at h
  · simp at h
    exact .inl h.symm
  · split at h
    · split at h
      · simp at h
        exact .inl h.symm
      · split at h
        · rename_i e heq
          simp at h
          rcases pySubscript_error_shape _ _ _ heq with hk | ht
          · exact .inr (.inr (.inl ⟨_, by rw [← h, hk]⟩))
          · exact .inr (.inr (.inr (.inl (by rw [← h, ht]))))
        · split at h
          · simp at h
          · simp at h
            exact .inr (.inr (.inr (.inr ⟨_, h.symm⟩)))
        · simp at h
          exact .inr (.inr (.inr (.inr ⟨_, h.symm⟩)))
    · simp at h
      exact .inr (.inl h.symm)

lemma pollLoop_outcome_shape (st : Int) (u lu : String) (rs : List Response) :
    (pollLoop st u lu rs).2 = .pending ∨
      ∃ r, r ∈ rs ∧ pollOnce lu r = some ((pollLoop st u lu rs).2) := by
  induction rs with
  | nil => exact .inl rfl
  | cons r rest ih =>
    rw [pollLoop]
    cases hpo : pollOnce lu r with
    | some o =>
      right
      exact ⟨r, by simp, by simp [hpo]⟩
    | none =>
      rcases ih with h | ⟨r', h1, h2⟩
      · left
        simpa using h
      · right
        exact ⟨r', by simp [h1], by simpa using h2⟩

/-! ### Exhaustive case analysis of `run` -/

lemma run_cases (a : Option String) (net : Network) (n : Int) :
    run a net n = ([], .err (.valueError missingTriggerMsg)) ∨
    run a net n = ([], .err (.valueError invalidTriggerMsg)) ∨
    (∃ trig, a = some trig ∧
      run a net n = ([Event.post trig],
        .err (.valueError (postFailMsg net.postResponse.status_code net.postResponse.text)))) ∨
    (∃ trig e, a = some trig ∧ (e = Err.typeError ∨ ∃ k, e = Err.keyError k) ∧
      run a net n = ([Event.post trig], .err e)) ∨
    (∃ trig secret sync_id rid, a = some trig ∧
      run a net n = (Event.post trig ::
          (pollLoop (effectiveSleepTime n) (srUrl secret rid) (logUrl sync_id) net.getResponses).1,
        (pollLoop (effectiveSleepTime n) (srUrl secret rid) (logUrl sync_id) net.getResponses).2)) := by
  cases a with
  | none => exact .inl rfl
  | some trig =>
    by_cases htrig : trig = ""
    · exact .inl (by simp [run, htrig])
    · rcases hm : censusMatch trig with _ | ⟨secret, sync_id⟩
      · exact .inr (.inl (by simp [run, htrig, hm]))
      · by_cases hc : net.postResponse.status_code = 200
        · rcases hd : pySubscript net.postResponse.body "data" with e | d
          · refine .inr (.inr (.inr (.inl ⟨trig, e, rfl, ?_, ?_⟩)))
            · rcases pySubscript_error_shape _ _ _ hd with h | h
              · exact .inr ⟨_, h⟩
              · exact .inl h
            · simp [run, htrig, hm, hc, hd]
          · rcases hr : pySubscript d "sync_run_id" with e | rid
            · refine .inr (.inr (.inr (.inl ⟨trig, e, rfl, ?_, ?_⟩)))
              · rcases pySubscript_error_shape _ _ _ hr with h | h
                · exact .inr ⟨_, h⟩
                · exact .inl h
              · simp [run, htrig, hm, hc, hd, hr]
            · exact .inr (.inr (.inr (.inr ⟨trig, secret, sync_id, rid, rfl,
                run_success trig secret sync_id net n d rid hm hc hd hr⟩)))
        · exact .inr (.inr (.inl ⟨trig, rfl, by simp [run, htrig, hm, hc]⟩))

/-- Every sleep the invocation performs uses the effective sleep interval. -/
lemma run_sleep_events (a : Option String) (net : Network) (n : Int) :
    ∀ s, Event.sleep s ∈ (run a net n).1 → s = effectiveSleepTime n := by
  intro s hs
  rcases run_cases a net n with hc | hc | ⟨trig, _, hc⟩ | ⟨trig, e, _, _, hc⟩ |
    ⟨trig, secret, sync_id, rid, _, hc⟩ <;> rw [hc] at hs
  · simp at hs
  · simp at hs
  · simp at hs
  · simp at hs
  · simp only [List.mem_cons] at hs
    rcases hs with h | h
    · simp at h
    · rcases pollLoop_events _ _ _ _ _ h with h' | h'
      · injection h'
      · cases h'

/-! ### Claims -/

/-- Claim C1: on a validated endpoint with a 200 trigger response and an
extracted run identifier, when the poll responses are `ws.length` responses
with status `"working"` followed by a first terminal one, `run` issues
exactly `ws.length + 1` poll GET requests, exits the loop on that poll, and
returns that response's `data` object verbatim, with no transformation of
field names. -/
theorem C1_polls_until_first_terminal (trig secret sync_id : String) (net : Network) (n : Int)
    (d rid dt : Json) (ws : List Response) (t : Response) (rest : List Response)
    (hm : censusMatch trig = some (secret, sync_id))
    (hc : net.postResponse.status_code = 200)
    (hd : pySubscript net.postResponse.body "data" = Except.ok d)
    (hr : pySubscript d "sync_run_id" = Except.ok rid)
    (hg : net.getResponses = ws ++ t :: rest)
    (hW : ∀ w ∈ ws, workingResp w)
    (hT : terminalResp t dt) :
    run (some trig) net n =
      (Event.post trig ::
        (List.replicate (ws.length + 1)
          [Event.sleep (effectiveSleepTime n), Event.get (srUrl secret rid)]).flatten,
       Outcome.ok dt) ∧
    countGets (run (some trig) net n).1 = ws.length + 1 := by
  have h1 := run_success trig secret sync_id net n d rid hm hc hd hr
  rw [hg, pollLoop_of_working_prefix (effectiveSleepTime n) (srUrl secret rid) (logUrl sync_id)
    ws t rest dt hW hT] at h1
  refine ⟨h1, ?_⟩
  have h2 : (run (some trig) net n).1 =
      Event.post trig ::
        (List.replicate (ws.length + 1)
          [Event.sleep (effectiveSleepTime n), Event.get (srUrl secret rid)]).flatten := by
    rw [h1]
  rw [h2, countGets_cons_post, countGets_flatten_replicate]

/-- Claim C1 witness: the spec scenario with poll statuses working, working,
completed issues exactly 3 poll GETs and returns the third `data` object. -/
theorem C1_witness :
    run (some trigEx) netEx 60 =
      (Event.post trigEx :: (List.replicate 3 [Event.sleep 60, Event.get srEx]).flatten,
       Outcome.ok (Json.obj [("status", Json.str "completed"), ("records_processed", Json.num 10)])) ∧
    countGets (run (some trigEx) netEx 60).1 = 3 :=
  C1_polls_until_first_terminal trigEx "s3cr3t" "123" netEx 60
    (Json.obj [("sync_run_id", Json.str "r9")]) (Json.str "r9")
    (Json.obj [("status", Json.str "completed"), ("records_processed", Json.num 10)])
    [wEx, wEx] cEx [] rfl rfl rfl rfl rfl
    (fun w hw => by
      simp only [List.mem_cons, List.not_mem_nil, or_false] at hw
      rcases hw with h | h <;> subst h <;>
        exact ⟨rfl, [("data", Json.obj [("status", Json.str "working")])],
          Json.obj [("status", Json.str "working")], rfl, rfl, rfl⟩)
    ⟨rfl, ⟨[("data", Json.obj [("status", Json.str "completed"), ("records_processed", Json.num 10)])],
        rfl, rfl⟩,
      Json.str "completed", rfl,
      fun h => by injection h with h2; exact absurd h2 (by decide)⟩

/-- Claim C2: a non-200 trigger POST response makes `run` raise the
`ValueError` carrying the status code and response body verbatim, with zero
poll GET requests issued. -/
theorem C2_trigger_failure (trig secret sync_id : String) (net : Network) (n : Int)
    (hm : censusMatch trig = some (secret, sync_id))
    (hc : net.postResponse.status_code ≠ 200) :
    run (some trig) net n =
      ([Event.post trig],
       .err (.valueError (postFailMsg net.postResponse.status_code net.postResponse.text))) ∧
    countGets (run (some trig) net n).1 = 0 := by
  have htrig : trig ≠ "" := censusMatch_ne_empty hm
  have h1 : run (some trig) net n =
      ([Event.post trig],
       .err (.valueError (postFailMsg net.postResponse.status_code net.postResponse.text))) := by
    simp [run, htrig, hm, hc]
  refine ⟨h1, ?_⟩
  have h2 : (run (some trig) net n).1 = [Event.post trig] := by rw [h1]
  rw [h2]
  rfl

/-- Claim C2 witness: a 403 trigger response with body text `denied`. -/
theorem C2_witness :
    run (some trigEx) net403 60 =
      ([Event.post trigEx],
       .err (.valueError "Sent POST, failed with status code 403: denied.")) ∧
    countGets (run (some trigEx) net403 60).1 = 0 :=
  C2_trigger_failure trigEx "s3cr3t" "123" net403 60 rfl (by decide)

/-- Claim C3 counterexample: a poll response with status 200 whose JSON body
is an array — a body lacking the `data` key — makes `run` fail with the
`AttributeError` arising from `.keys()` on a non-`dict`, not with the
`ValueError` that points at the provider-side log URL. -/
theorem C3_counterexample :
    (run (some trigEx) netPollArr 60).2 = .err .attributeError ∧
      Err.attributeError ≠ .valueError (pollFailMsg logEx) :=
  ⟨rfl, by decide⟩

/-- Claim C3 (amended): at whatever loop iteration a poll GET response first
arrives that has a non-200 status code, or that has status 200 and a
JSON-object body lacking the `data` key — here after `ws.length` preceding
`"working"` responses — `run` raises the `ValueError` whose message points
at the provider-side log URL, and the loop terminates with no further
requests: the failing poll's GET is the last, `ws.length + 1`-th, request in
the trace.  (For a 200 response with a non-object JSON body the code instead
fails with `AttributeError` from `.keys()`.) -/
theorem C3_amended_poll_failure (trig secret sync_id : String) (net : Network) (n : Int)
    (d rid : Json) (ws : List Response) (r : Response) (rest : List Response)
    (hm : censusMatch trig = some (secret, sync_id))
    (hc : net.postResponse.status_code = 200)
    (hd : pySubscript net.postResponse.body "data" = Except.ok d)
    (hr : pySubscript d "sync_run_id" = Except.ok rid)
    (hg : net.getResponses = ws ++ r :: rest)
    (hW : ∀ w ∈ ws, workingResp w)
    (hbad : r.status_code ≠ 200 ∨
      (r.status_code = 200 ∧ ∃ fields, r.body = Json.obj fields ∧
        assocLookup "data" fields = none)) :
    run (some trig) net n =
      (Event.post trig ::
        (List.replicate (ws.length + 1)
          [Event.sleep (effectiveSleepTime n), Event.get (srUrl secret rid)]).flatten,
       .err (.valueError (pollFailMsg (logUrl sync_id)))) ∧
    countGets (run (some trig) net n).1 = ws.length + 1 := by
  have h1 := run_success trig secret sync_id net n d rid hm hc hd hr
  rw [hg, pollLoop_stops_after_working_prefix (effectiveSleepTime n) (srUrl secret rid)
    (logUrl sync_id) ws r rest _ hW (pollOnce_of_bad (logUrl sync_id) r hbad)] at h1
  refine ⟨h1, ?_⟩
  have h2 : (run (some trig) net n).1 =
      Event.post trig ::
        (List.replicate (ws.length + 1)
          [Event.sleep (effectiveSleepTime n), Event.get (srUrl secret rid)]).flatten := by
    rw [h1]
  rw [h2, countGets_cons_post, countGets_flatten_replicate]

/-- Claim C3 witness: a 500 poll response at the second iteration, after one
`"working"` poll, stops the loop after its GET (the second and last one)
with the `ValueError` pointing at the log URL. -/
theorem C3_witness :
    run (some trigEx) netWorkThen500 60 =
      (Event.post trigEx :: (List.replicate 2 [Event.sleep 60, Event.get srEx]).flatten,
       .err (.valueError (pollFailMsg logEx))) ∧
    countGets (run (some trigEx) netWorkThen500 60).1 = 2 :=
  C3_amended_poll_failure trigEx "s3cr3t" "123" netWorkThen500 60
    (Json.obj [("sync_run_id", Json.str "r9")]) (Json.str "r9")
    [wEx] ⟨500, "oops", Json.null⟩ []
    rfl rfl rfl rfl rfl
    (fun w hw => by
      simp only [List.mem_cons, List.not_mem_nil, or_false] at hw
      subst hw
      exact ⟨rfl, [("data", Json.obj [("status", Json.str "working")])],
        Json.obj [("status", Json.str "working")], rfl, rfl, rfl⟩)
    (.inl (by decide))

/-- Claim C4: any non-empty endpoint string the anchored pattern match
rejects makes `run` raise the invalid-parameter `ValueError`, no matter how
close the string is to a valid endpoint. -/
theorem C4_nonmatching_rejected (trig : String) (net : Network) (n : Int)
    (hne : trig ≠ "") (hm : censusMatch trig = none) :
    run (some trig) net n = ([], .err (.valueError invalidTriggerMsg)) := by
  simp [run, hne, hm]

/-- Claim C4 witness: the uppercase-scheme variant of a valid endpoint fails
the case-sensitive match and is rejected. -/
theorem C4_witness :
    upperTrig ≠ "" ∧ censusMatch upperTrig = none ∧
      run (some upperTrig) net403 60 = ([], .err (.valueError invalidTriggerMsg)) :=
  ⟨by decide, rfl, C4_nonmatching_rejected upperTrig net403 60 (by decide) rfl⟩

/-- Claim C5: the effective sleep interval is `max(MIN_WAIT_TIME, n)` — `5`
for every `n ≤ 5` and `n` unchanged for every `n > 5` — every sleep the
invocation performs uses it, and an invocation without the argument uses the
default `DEFAULT_WAIT_TIME = 60`. -/
theorem C5_effective_sleep_interval (a : Option String) (net : Network) (n : Int) :
    effectiveSleepTime n = max MIN_WAIT_TIME n ∧
    (∀ s, Event.sleep s ∈ (run a net n).1 → s = effectiveSleepTime n) ∧
    (n ≤ 5 → effectiveSleepTime n = 5) ∧
    (5 < n → effectiveSleepTime n = n) ∧
    run a net = run a net DEFAULT_WAIT_TIME ∧
    DEFAULT_WAIT_TIME = 60 := by
  refine ⟨rfl, run_sleep_events a net n, ?_, ?_, rfl, rfl⟩
  · intro h
    exact max_eq_left h
  · intro h
    exact max_eq_right (le_of_lt h)

/-- Claim C5 witness: clamping at 3, identity at 7, and the default call. -/
theorem C5_witness :
    effectiveSleepTime 3 = 5 ∧ effectiveSleepTime 7 = 7 ∧
      run (some trigEx) netEx = run (some trigEx) netEx DEFAULT_WAIT_TIME :=
  ⟨(C5_effective_sleep_interval none netEx 3).2.2.1 (by decide),
   (C5_effective_sleep_interval none netEx 7).2.2.2.1 (by decide),
   (C5_effective_sleep_interval (some trigEx) netEx 60).2.2.2.2.1⟩

/-- Claim C6: an absent (`None`) or empty endpoint makes `run` raise the
missing-parameter `ValueError`. -/
theorem C6_missing_trigger (net : Network) (n : Int) :
    run none net n = ([], .err (.valueError missingTriggerMsg)) ∧
    run (some "") net n = ([], .err (.valueError missingTriggerMsg)) :=
  ⟨rfl, rfl⟩

/-- Claim C7: whenever `run` raises one of the two configuration
`ValueError`s (missing or structurally invalid endpoint), its trace is
empty: no POST, GET or sleep was performed. -/
theorem C7_no_network_before_config_error (a : Option String) (net : Network) (n : Int)
    (h : (run a net n).2 = .err (.valueError missingTriggerMsg) ∨
         (run a net n).2 = .err (.valueError invalidTriggerMsg)) :
    (run a net n).1 = [] := by
  rcases run_cases a net n with hc | hc | ⟨trig, _, hc⟩ | ⟨trig, e, _, hsh, hc⟩ |
    ⟨trig, secret, sync_id, rid, _, hc⟩
  · rw [hc]
  · rw [hc]
  · have h2 : (run a net n).2 =
        .err (.valueError (postFailMsg net.postResponse.status_code net.postResponse.text)) := by
      rw [hc]
    rw [h2] at h
    simp only [Outcome.err.injEq, Err.valueError.injEq] at h
    rcases h with h | h
    · exact absurd h (postFailMsg_ne_missing _ _)
    · exact absurd h (postFailMsg_ne_invalid _ _)
  · have h2 : (run a net n).2 = .err e := by rw [hc]
    rw [h2] at h
    rcases hsh with he | ⟨k, he⟩ <;> subst he <;> simp at h
  · have h2 : (run a net n).2 =
        (pollLoop (effectiveSleepTime n) (srUrl secret rid) (logUrl sync_id) net.getResponses).2 := by
      rw [hc]
    rw [h2] at h
    have key : ∀ m : String, pollFailMsg (logUrl sync_id) ≠ m →
        (pollLoop (effectiveSleepTime n) (srUrl secret rid) (logUrl sync_id) net.getResponses).2 ≠
          .err (.valueError m) := by
      intro m hnem hcon
      rcases pollLoop_outcome_shape (effectiveSleepTime n) (srUrl secret rid) (logUrl sync_id)
          net.getResponses with hp | ⟨r, _, hpo⟩
      · rw [hp] at hcon
        cases hcon
      · rw [hcon] at hpo
        rcases pollOnce_shape _ _ _ hpo with h1 | h1 | ⟨k, h1⟩ | h1 | ⟨j, h1⟩
        · simp only [Outcome.err.injEq, Err.valueError.injEq] at h1
          exact hnem h1.symm
        · simp at h1
        · simp at h1
        · simp at h1
        · simp at h1
    rcases h with h | h
    · exact absurd h (key missingTriggerMsg (pollFailMsg_ne_missing _))
    · exact absurd h (key invalidTriggerMsg (pollFailMsg_ne_invalid _))

/-- Claim C7 witness: an invalid endpoint produces an empty trace. -/
theorem C7_witness : (run (some "x") net403 60).1 = [] :=
  C7_no_network_before_config_error (some "x") net403 60 (.inr rfl)

/-- Claim C8: a 200 trigger response whose body lacks the nested
`data.sync_run_id` field makes the invocation fail with a generic lookup
fault (`KeyError` / `TypeError`), never with one of the `ValueError`s the
code raises deliberately. -/
theorem C8_missing_run_id_lookup_failure (trig secret sync_id : String) (net : Network)
    (n : Int) (e : Err)
    (hm : censusMatch trig = some (secret, sync_id))
    (hc : net.postResponse.status_code = 200)
    (he : (pySubscript net.postResponse.body "data").bind
        (fun d => pySubscript d "sync_run_id") = .error e) :
    run (some trig) net n = ([Event.post trig], .err e) ∧
      Err.isLookupFailure e = true ∧ ∀ m, e ≠ .valueError m := by
  have htrig : trig ≠ "" := censusMatch_ne_empty hm
  have fin : ∀ e' : Err, ((∃ k, e' = Err.keyError k) ∨ e' = Err.typeError) →
      Err.isLookupFailure e' = true ∧ ∀ m, e' ≠ .valueError m := by
    rintro e' (⟨k, rfl⟩ | rfl)
    · exact ⟨rfl, fun m hcon => by cases hcon⟩
    · exact ⟨rfl, fun m hcon => by cases hcon⟩
  rcases hd : pySubscript net.postResponse.body "data" with e0 | d
  · rw [hd] at he
    simp only [Except.bind] at he
    injection he with he2
    subst he2
    refine ⟨by simp [run, htrig, hm, hc, hd], fin _ ?_⟩
    rcases pySubscript_error_shape _ _ _ hd with h | h
    · exact .inl ⟨_, h⟩
    · exact .inr h
  · rw [hd] at he
    simp only [Except.bind] at he
    refine ⟨by simp [run, htrig, hm, hc, hd, he], fin _ ?_⟩
    rcases pySubscript_error_shape _ _ _ he with h | h
    · exact .inl ⟨_, h⟩
    · exact .inr h

/-- Claim C8 witness: a trigger body whose `data` object is empty yields the
`KeyError` for `sync_run_id`. -/
theorem C8_witness :
    (pySubscript netNoRunId.postResponse.body "data").bind
        (fun d => pySubscript d "sync_run_id") = .error (.keyError "sync_run_id") ∧
    run (some trigEx) netNoRunId 60 = ([Event.post trigEx], .err (.keyError "sync_run_id")) ∧
    Err.isLookupFailure (.keyError "sync_run_id") = true :=
  ⟨rfl,
   (C8_missing_run_id_lookup_failure trigEx "s3cr3t" "123" netNoRunId 60
     (.keyError "sync_run_id") rfl rfl rfl).1,
   rfl⟩

/-- Claim C9: the status-polling URL is built exactly as
`https://bearer:secret-token:<SECRET>@app.getcensus.com/api/v1/sync_runs/<RUN_ID>`
from the secret captured from the trigger endpoint and the extracted run
identifier, and every poll GET the invocation issues goes to it. -/
theorem C9_status_url_construction (trig secret sync_id : String) (net : Network) (n : Int)
    (d rid : Json) (r : Response) (rest : List Response)
    (hm : censusMatch trig = some (secret, sync_id))
    (hc : net.postResponse.status_code = 200)
    (hd : pySubscript net.postResponse.body "data" = Except.ok d)
    (hr : pySubscript d "sync_run_id" = Except.ok rid)
    (hg : net.getResponses = r :: rest) :
    srUrl secret rid =
      "https://bearer:secret-token:" ++ secret ++
        "@app.getcensus.com/api/v1/sync_runs/" ++ pyStr rid ∧
    Event.get (srUrl secret rid) ∈ (run (some trig) net n).1 ∧
    ∀ e ∈ (run (some trig) net n).1, ∀ v, e = Event.get v → v = srUrl secret rid := by
  have h1 := run_success trig secret sync_id net n d rid hm hc hd hr
  have ht : (run (some trig) net n).1 =
      Event.post trig ::
        (pollLoop (effectiveSleepTime n) (srUrl secret rid) (logUrl sync_id)
          net.getResponses).1 := by
    rw [h1]
  refine ⟨rfl, ?_, ?_⟩
  · rw [ht, hg]
    exact List.mem_cons_of_mem _ (pollLoop_get_mem _ _ _ _ _)
  · intro e he v hv
    rw [ht] at he
    rcases List.mem_cons.mp he with h | h
    · rw [h] at hv
      cases hv
    · rcases pollLoop_events _ _ _ _ _ h with h' | h'
      · rw [h'] at hv
        cases hv
      · rw [h'] at hv
        injection hv with hv2
        exact hv2.symm

/-- Claim C9 witness: in the happy-path environment the derived status URL
is polled. -/
theorem C9_witness : Event.get srEx ∈ (run (some trigEx) netEx 60).1 :=
  (C9_status_url_construction trigEx "s3cr3t" "123" netEx 60
    (Json.obj [("sync_run_id", Json.str "r9")]) (Json.str "r9") wEx [wEx, cEx]
    rfl rfl rfl rfl rfl).2.1

/-- Claim C10: the pattern match is anchored only at the start and both
capture groups admit empty matches: a valid endpoint followed by trailing
junk validates (capturing the same groups), an endpoint with an empty secret
and an empty sync identifier validates, and in both cases the trigger POST
is issued to the input string exactly as given. -/
theorem C10_match_start_anchored_empty_groups :
    censusMatch junkTrig = some ("s3cr3t", "123") ∧
    censusMatch emptyGroupsTrig = some ("", "") ∧
    (run (some junkTrig) net403 60).1.head? = some (Event.post junkTrig) ∧
    (run (some emptyGroupsTrig) net403 60).1.head? = some (Event.post emptyGroupsTrig) :=
  ⟨rfl, rfl, rfl, rfl⟩

end Census
